import Mathlib

/-!
Verification of the core of the outage-monitor-bot repository: the source
monitor (internal/monitor), the persistence layer for sources and status
changes (internal/storage), the bot process supervisor
(internal/appmanager/bot_process.go) and the inbound heartbeat endpoint
(webhook_handlers).

Modeling conventions:
* Time is modeled as integer nanoseconds since the Unix epoch; Go's zero
  `time.Time` is the value `0`, and `IsZero` is equality with `0`.
* Go `time.Duration` values are integers (nanoseconds).
* Go `float64` arithmetic is modeled exactly over `ℚ`; the `float64 → int64`
  conversion truncates toward zero, modeled by `goTrunc`.
* The bbolt key-value store is modeled as an association list keyed by
  source id; `Put` replaces the value stored at an existing key.
* Random UUID generation and msgpack (de)serialization are identity-like
  details that cannot affect the verified properties; we model records
  directly and treat marshalling as always succeeding.
-/

namespace OutageMonitor

/-- Time in integer nanoseconds since the Unix epoch.  Go's zero `time.Time`
is modeled as `0`. -/
abbrev Time := Int

/-- Truncation of a rational toward zero, the semantics of Go's
`float64 → int64` (`time.Duration`) conversion for in-range values. -/
def goTrunc (q : ℚ) : Int :=
  if 0 ≤ q then ⌊q⌋ else ⌈q⌉

/-- Embedding of `storage.Source` (internal/storage/bolt.go lines 99-115):
a monitoring source record.  `currentStatus` is an machine integer
(1 online, 0 offline; newly created sources use -1 for "unknown"). -/
structure Source where
  id : String
  name : String
  type : String
  target : String
  checkInterval : Int
  currentStatus : Int
  lastCheckTime : Time
  lastChangeTime : Time
  enabled : Bool
  createdAt : Time
  webhookToken : String
  gracePeriodMultiplier : ℚ
  expectedHeaders : String
  expectedContent : String
  deriving Repr, DecidableEq

/-- Embedding of `storage.StatusChange` (internal/storage/status_changes.go):
an immutable record of one status transition. -/
structure StatusChange where
  id : String
  sourceId : String
  oldStatus : Int
  newStatus : Int
  timestamp : Time
  durationMs : Int
  deriving Repr, DecidableEq

/-- The bbolt database contents relevant to the claims: the `sources` bucket
(an association list keyed by source id, in key order) and the
`status_changes` bucket (the list of persisted transition events, in
insertion order). -/
structure Store where
  sources : List (String × Source)
  changes : List StatusChange
  deriving Repr, DecidableEq

/-- Replace the value stored at key `id`, or append the pair if the key is
absent: the effect of a bbolt `bucket.Put` on an association-list model
with unique keys. -/
def putList : List (String × Source) → String → Source → List (String × Source)
  | [], id, v => [(id, v)]
  | p :: ps, id, v => if p.1 == id then (id, v) :: ps else p :: putList ps id v

/-- Embedding of `BoltDB.GetSource`: point read of the `sources` bucket. -/
def getSource (st : Store) (id : String) : Option Source :=
  (st.sources.find? (fun p => p.1 == id)).map (fun p => p.2)

/-- Write a source record into the `sources` bucket. -/
def putSource (st : Store) (id : String) (v : Source) : Store :=
  { st with sources := putList st.sources id v }

/-- Embedding of `BoltDB.SaveStatusChange` (status_changes.go lines 32-63):
appends the transition record to the `status_changes` bucket.  The callers
in the monitor always pass a fresh record with a nonzero timestamp, so the
UUID/timestamp defaulting at the top of the Go function is left out. -/
def saveStatusChange (st : Store) (change : StatusChange) : Store :=
  { st with changes := st.changes ++ [change] }

/-- Embedding of `BoltDB.UpdateSourceStatus` (internal/storage/bolt.go lines
301-333).  Reads the stored record; on "source not found" the transaction
fails (`none`).  Otherwise it sets `CurrentStatus := status` and
`LastCheckTime := checkTime` unconditionally, and sets
`LastChangeTime := checkTime` exactly when the status differs from the
previously stored one. -/
def updateSourceStatus (st : Store) (id : String) (status : Int) (checkTime : Time) :
    Option Store :=
  match getSource st id with
  | none => none
  | some source =>
    let oldStatus := source.currentStatus
    let source1 := { source with currentStatus := status, lastCheckTime := checkTime }
    let source2 :=
      if status ≠ oldStatus then { source1 with lastChangeTime := checkTime } else source1
    some (putSource st id source2)

/-- Embedding of `BoltDB.UpdateSourceCurrentStatus` (bolt.go lines 337-368):
like `updateSourceStatus` but deliberately leaves `LastCheckTime` untouched.
Its doc comment says "Use for webhook sources where LastCheckTime tracks the
last heartbeat received, not the last monitor tick" — but no code in the
repository ever calls it. -/
def updateSourceCurrentStatus (st : Store) (id : String) (status : Int) (changeTime : Time) :
    Option Store :=
  match getSource st id with
  | none => none
  | some source =>
    let oldStatus := source.currentStatus
    let source1 := { source with currentStatus := status }
    let source2 :=
      if status ≠ oldStatus then { source1 with lastChangeTime := changeTime } else source1
    some (putSource st id source2)

/-- The monitor's handling of a failed `UpdateSourceStatus` call
(part_001 lines 314-316 and 333-335): the error is logged and the store is
left as it was (the bbolt transaction rolled back). -/
def applyUpdate (st : Store) (id : String) (status : Int) (checkTime : Time) : Store :=
  match updateSourceStatus st id status checkTime with
  | none => st
  | some st2 => st2

/-! ### Check dispatch (internal/monitor, src/unnamed/part_001) -/

/-- The outcomes provided by the external world during one tick: the current
clock and the results of the network probes.  `PingTarget` and `CheckHTTP`
return 1 exactly when the probe succeeds, so the probe outcomes are Booleans. -/
structure Env where
  now : Time
  pingOnline : String → Bool
  httpOnline : String → Bool

/-- Embedding of `Monitor.PingTarget` (ICMP probe, src/unnamed part): returns
1 if at least one echo reply was received, 0 otherwise.  The network outcome
is supplied by `Env`. -/
def pingTarget (e : Env) (target : String) : Int :=
  if e.pingOnline target then 1 else 0

/-- Embedding of `Monitor.CheckHTTP` (part_001 lines 340-368): returns 1 if
the GET returned a status in [200,400), 0 on any error or other status.  The
network outcome is supplied by `Env`. -/
def checkHTTP (e : Env) (url : String) : Int :=
  if e.httpOnline url then 1 else 0

/-- The grace multiplier actually used by the webhook check (part_001 lines
226-229): the stored multiplier, or 2.5 when the stored value is not
positive. -/
def effectiveGraceMultiplier (m : ℚ) : ℚ :=
  if m ≤ 0 then 5/2 else m

/-- Embedding of `Monitor.checkWebhookSource` (part_001 lines 221-238):
offline if no heartbeat was ever received (`LastCheckTime` zero); otherwise
online iff `now` is not after `LastCheckTime + interval * multiplier`, where
the product is computed in float64 and truncated to a `time.Duration`. -/
def checkWebhookSource (now : Time) (source : Source) : Int :=
  if source.lastCheckTime = 0 then 0
  else
    let mult := effectiveGraceMultiplier source.gracePeriodMultiplier
    let graceDuration := goTrunc ((source.checkInterval : ℚ) * mult)
    let deadline := source.lastCheckTime + graceDuration
    if deadline < now then 0 else 1

/-- Embedding of `Monitor.CheckSource` (part_001 lines 206-218): dispatch on
the source's type; unknown types are logged and report 0. -/
def checkSource (e : Env) (source : Source) : Int :=
  if source.type == "ping" then pingTarget e source.target
  else if source.type == "http" then checkHTTP e source.target
  else if source.type == "webhook" then checkWebhookSource e.now source
  else 0

/-! ### Supporting lemmas about the store -/

theorem find?_putList (l : List (String × Source)) (id : String) (v : Source) :
    (putList l id v).find? (fun p => p.1 == id) = some (id, v) := by
  induction l with
  | nil => simp [putList, List.find?]
  | cons p ps ih =>
    by_cases h : p.1 == id
    · simp [putList, h, List.find?]
    · simp only [putList, h, if_false, Bool.false_eq_true]
      rw [List.find?_cons_of_neg _ (by simpa using h)]
      exact ih

theorem getSource_putSource (st : Store) (id : String) (v : Source) :
    getSource (putSource st id v) id = some v := by
  unfold getSource putSource
  rw [find?_putList]
  rfl

/-- Characterization of one `UpdateSourceStatus` call on an existing record. -/
theorem updateSourceStatus_spec (st : Store) (id : String) (status : Int) (t : Time)
    (s : Source) (h : getSource st id = some s) :
    ∃ st2, updateSourceStatus st id status t = some st2 ∧
      getSource st2 id = some
        { s with currentStatus := status, lastCheckTime := t,
                 lastChangeTime := if status = s.currentStatus then s.lastChangeTime else t } := by
  have hv : updateSourceStatus st id status t = some (putSource st id
      { s with currentStatus := status, lastCheckTime := t,
               lastChangeTime := if status = s.currentStatus then s.lastChangeTime else t }) := by
    unfold updateSourceStatus
    rw [h]
    by_cases hc : status = s.currentStatus
    · simp [hc]
    · simp [hc]
  exact ⟨_, hv, getSource_putSource _ _ _⟩

/-- The per-step "updated together" property along an arbitrary sequence of
`UpdateSourceStatus` calls (each element of the list is one call's
status/checkTime pair). -/
def stepsTogether (id : String) : Store → List (Int × Time) → Prop
  | _, [] => True
  | st, c :: cs =>
    (∀ s s2, getSource st id = some s →
        getSource (applyUpdate st id c.1 c.2) id = some s2 →
        s2.currentStatus = c.1 ∧
        s2.lastChangeTime = (if c.1 = s.currentStatus then s.lastChangeTime else c.2)) ∧
    stepsTogether id (applyUpdate st id c.1 c.2) cs

theorem stepsTogether_all (id : String) (calls : List (Int × Time)) :
    ∀ st, stepsTogether id st calls := by
  induction calls with
  | nil => intro st; trivial
  | cons c cs ih =>
    intro st
    refine ⟨?_, ih _⟩
    intro s s2 hs hs2
    obtain ⟨st2, hupd, hget⟩ := updateSourceStatus_spec st id c.1 c.2 s hs
    rw [applyUpdate, hupd] at hs2
    rw [hget] at hs2
    cases hs2
    constructor
    · rfl
    · rfl

/-- C3: for every `UpdateSourceStatus(id, status, checkTime)` call on an
existing stored source, the record's `LastChangeTime` is set to `checkTime`
exactly when `status` differs from the previously stored `CurrentStatus`
and is left unchanged otherwise; consequently, along any sequence of such
calls, `current_status` and `last_change_time` are updated together at each
step and never change independently. -/
theorem c3_updateSourceStatus_atomic_changeTime (id : String) :
    (∀ st status t s, getSource st id = some s →
      ∃ st2, updateSourceStatus st id status t = some st2 ∧
        ∃ s2, getSource st2 id = some s2 ∧
          s2.currentStatus = status ∧
          s2.lastCheckTime = t ∧
          s2.lastChangeTime = (if status = s.currentStatus then s.lastChangeTime else t) ∧
          (s2.lastChangeTime ≠ s.lastChangeTime → s2.currentStatus ≠ s.currentStatus)) ∧
    (∀ st calls, stepsTogether id st calls) := by
  constructor
  · intro st status t s h
    obtain ⟨st2, hupd, hget⟩ := updateSourceStatus_spec st id status t s h
    refine ⟨st2, hupd, _, hget, rfl, rfl, rfl, ?_⟩
    intro hne
    by_cases hc : status = s.currentStatus
    · exact absurd (by simp [hc]) hne
    · simpa using hc
  · intro st calls
    exact stepsTogether_all id calls st

/-- A concrete ping source used to instantiate theorems with hypotheses. -/
def sampleSource : Source :=
  { id := "a", name := "n", type := "ping", target := "10.0.0.1", checkInterval := 10,
    currentStatus := 1, lastCheckTime := 5, lastChangeTime := 3, enabled := true,
    createdAt := 0, webhookToken := "", gracePeriodMultiplier := 0,
    expectedHeaders := "", expectedContent := "" }

/-- A concrete store holding only `sampleSource`. -/
def sampleStore : Store := ⟨[("a", sampleSource)], []⟩

/-- Concrete instantiation of C3's theorem: a store holding one source,
updated once with a different status and once with the same status. -/
theorem c3_witness :
    (getSource sampleStore "a" = some sampleSource) ∧
    (∃ st2, updateSourceStatus sampleStore "a" 0 7 = some st2 ∧
      ∃ s2, getSource st2 "a" = some s2 ∧
        s2.currentStatus = 0 ∧
        s2.lastCheckTime = 7 ∧
        s2.lastChangeTime =
          (if (0 : Int) = sampleSource.currentStatus then sampleSource.lastChangeTime else 7) ∧
        (s2.lastChangeTime ≠ sampleSource.lastChangeTime →
          s2.currentStatus ≠ sampleSource.currentStatus)) ∧
    stepsTogether "a" sampleStore [(0, 7), (0, 9)] := by
  refine ⟨rfl, ?_, ?_⟩
  · exact (c3_updateSourceStatus_atomic_changeTime "a").1 sampleStore 0 7 sampleSource rfl
  · exact (c3_updateSourceStatus_atomic_changeTime "a").2 sampleStore [(0, 7), (0, 9)]

/-- C4: for every passive-heartbeat source with last heartbeat `t0`, check
interval `I` and grace multiplier `M` (2.5 when the stored multiplier is not
positive), a check at time `now` returns online iff `now ≤ t0 + I*M`, and
returns offline when `last_check_time` is unset (zero). -/
theorem c4_checkWebhookSource_grace_law (now : Time) (s : Source)
    (hI : 0 ≤ s.checkInterval) :
    (s.lastCheckTime = 0 → checkWebhookSource now s = 0) ∧
    (s.lastCheckTime ≠ 0 →
      (checkWebhookSource now s = 1 ↔
        (now : ℚ) ≤ (s.lastCheckTime : ℚ) +
          (s.checkInterval : ℚ) * effectiveGraceMultiplier s.gracePeriodMultiplier)) := by
  constructor
  · intro h
    simp [checkWebhookSource, h]
  · intro h
    have hM : 0 < effectiveGraceMultiplier s.gracePeriodMultiplier := by
      unfold effectiveGraceMultiplier
      split
      · norm_num
      · rename_i hm
        exact not_le.mp hm
    have hIM : 0 ≤ (s.checkInterval : ℚ) * effectiveGraceMultiplier s.gracePeriodMultiplier :=
      mul_nonneg (by exact_mod_cast hI) hM.le
    have hg : goTrunc ((s.checkInterval : ℚ) * effectiveGraceMultiplier s.gracePeriodMultiplier)
        = ⌊(s.checkInterval : ℚ) * effectiveGraceMultiplier s.gracePeriodMultiplier⌋ := by
      unfold goTrunc
      rw [if_pos hIM]
    set q : ℚ := (s.checkInterval : ℚ) * effectiveGraceMultiplier s.gracePeriodMultiplier with hqdef
    by_cases hlt : s.lastCheckTime + goTrunc q < now
    · have hlt2 : s.lastCheckTime + ⌊q⌋ < now := by rwa [hg] at hlt
      simp only [checkWebhookSource, h, if_false, if_pos hlt, ite_false]
      simp only [hg] at hlt ⊢
      constructor
      · intro h01
        exact absurd h01 (by norm_num)
      · intro hle
        exfalso
        have h1 : ((s.lastCheckTime + ⌊q⌋ + 1 : ℤ) : ℚ) ≤ (now : ℚ) := by
          exact_mod_cast hlt2
        have h2 : q < ⌊q⌋ + 1 := Int.lt_floor_add_one q
        push_cast at h1
        linarith
    · have hle2 : now ≤ s.lastCheckTime + ⌊q⌋ := by
        have h3 := not_lt.mp hlt
        rwa [hg] at h3
      simp only [checkWebhookSource, h, if_false, if_neg hlt, ite_false]
      constructor
      · intro _
        have h1 : (now : ℚ) ≤ ((s.lastCheckTime + ⌊q⌋ : ℤ) : ℚ) := by exact_mod_cast hle2
        have h2 : (⌊q⌋ : ℚ) ≤ q := Int.floor_le q
        push_cast at h1
        linarith
      · intro _
        trivial

/-- A concrete passive-heartbeat source: interval 60, stored multiplier 0
(not positive, so the default 2.5 applies), last heartbeat at time 1000, so
the grace deadline is 1000 + ⌊60 * 2.5⌋ = 1150. -/
def sampleWebhookSource : Source :=
  { id := "w", name := "hb", type := "webhook", target := "", checkInterval := 60,
    currentStatus := 1, lastCheckTime := 1000, lastChangeTime := 900, enabled := true,
    createdAt := 0, webhookToken := "tok", gracePeriodMultiplier := 0,
    expectedHeaders := "", expectedContent := "" }

/-- Concrete instantiation of C4's theorem at `now = 1150`. -/
theorem c4_witness :
    (0 : Int) ≤ sampleWebhookSource.checkInterval ∧
    ((sampleWebhookSource.lastCheckTime = 0 → checkWebhookSource 1150 sampleWebhookSource = 0) ∧
     (sampleWebhookSource.lastCheckTime ≠ 0 →
       (checkWebhookSource 1150 sampleWebhookSource = 1 ↔
         ((1150 : Int) : ℚ) ≤ (sampleWebhookSource.lastCheckTime : ℚ) +
           (sampleWebhookSource.checkInterval : ℚ) *
             effectiveGraceMultiplier sampleWebhookSource.gracePeriodMultiplier))) :=
  ⟨by norm_num [sampleWebhookSource],
   c4_checkWebhookSource_grace_law 1150 sampleWebhookSource (by norm_num [sampleWebhookSource])⟩

/-! ### Bot process supervisor configuration and backoff (internal/appmanager) -/

/-- The configuration fields of `config.Config` (src/unnamed/part_008) that
the bot process supervisor reads. -/
structure BPConfig where
  telegramToken : String
  autoRestartEnabled : Bool
  autoRestartDelay : Int
  autoRestartMaxAttempts : Int
  autoRestartBackoffMultiplier : ℚ
  autoRestartMaxDelay : Int
  deriving Repr, DecidableEq

/-- Embedding of `BotProcess.calculateBackoffDelay` (bot_process.go lines
367-382): base delay for attempt 0; otherwise
`float64(baseDelay) * multiplier^attempts` capped at the maximum delay.  The
float product is modeled exactly over ℚ, truncated to a `time.Duration`. -/
def calculateBackoffDelay (cfg : BPConfig) (restartAttempts : Nat) : Int :=
  if restartAttempts = 0 then cfg.autoRestartDelay
  else
    let delay : ℚ := (cfg.autoRestartDelay : ℚ) *
      cfg.autoRestartBackoffMultiplier ^ restartAttempts
    if cfg.autoRestartMaxDelay < goTrunc delay then cfg.autoRestartMaxDelay
    else goTrunc delay

/-- Modelled from the spec: the BackoffSchedule
`delay(n) = min(base * multiplier^n, max_delay)` for `n > 0` and
`delay(0) = base`, with exact rational arithmetic.  Used to compare the
code's computation against the spec's schedule. -/
def backoffScheduleSpec (cfg : BPConfig) (n : Nat) : ℚ :=
  if n = 0 then (cfg.autoRestartDelay : ℚ)
  else
    min ((cfg.autoRestartDelay : ℚ) * cfg.autoRestartBackoffMultiplier ^ n)
      (cfg.autoRestartMaxDelay : ℚ)

/-- C5: given a backoff configuration with nonnegative base delay,
multiplier at least 1 and base delay not exceeding the cap, the computed
delays agree with the spec schedule (up to the duration truncation of the
float product), are monotone in the attempt counter, and never exceed the
maximum delay. -/
theorem c5_backoff_monotone_capped (cfg : BPConfig)
    (hb : 0 ≤ cfg.autoRestartDelay)
    (hm : 1 ≤ cfg.autoRestartBackoffMultiplier)
    (hcap : cfg.autoRestartDelay ≤ cfg.autoRestartMaxDelay) :
    (∀ n : Nat, calculateBackoffDelay cfg n = ⌊backoffScheduleSpec cfg n⌋) ∧
    (∀ n : Nat, calculateBackoffDelay cfg n ≤ calculateBackoffDelay cfg (n + 1)) ∧
    (∀ n : Nat, calculateBackoffDelay cfg n ≤ cfg.autoRestartMaxDelay) := by
  have hm0 : (0 : ℚ) ≤ cfg.autoRestartBackoffMultiplier := le_trans zero_le_one hm
  have hbQ : (0 : ℚ) ≤ (cfg.autoRestartDelay : ℚ) := by exact_mod_cast hb
  have hx : ∀ n : Nat,
      0 ≤ (cfg.autoRestartDelay : ℚ) * cfg.autoRestartBackoffMultiplier ^ n :=
    fun n => mul_nonneg hbQ (pow_nonneg hm0 n)
  have hgt : ∀ n : Nat,
      goTrunc ((cfg.autoRestartDelay : ℚ) * cfg.autoRestartBackoffMultiplier ^ n) =
        ⌊(cfg.autoRestartDelay : ℚ) * cfg.autoRestartBackoffMultiplier ^ n⌋ := by
    intro n
    unfold goTrunc
    rw [if_pos (hx n)]
  have hcalc : ∀ n : Nat, n ≠ 0 → calculateBackoffDelay cfg n =
      min ⌊(cfg.autoRestartDelay : ℚ) * cfg.autoRestartBackoffMultiplier ^ n⌋
        cfg.autoRestartMaxDelay := by
    intro n hn
    simp only [calculateBackoffDelay, hn, if_false, hgt n, ite_false]
    rcases lt_or_le cfg.autoRestartMaxDelay
        ⌊(cfg.autoRestartDelay : ℚ) * cfg.autoRestartBackoffMultiplier ^ n⌋ with hc | hc
    · rw [if_pos hc, min_eq_right hc.le]
    · rw [if_neg (not_lt.mpr hc), min_eq_left hc]
  have hbase : ∀ n : Nat, cfg.autoRestartDelay ≤
      ⌊(cfg.autoRestartDelay : ℚ) * cfg.autoRestartBackoffMultiplier ^ n⌋ := by
    intro n
    rw [Int.le_floor]
    calc ((cfg.autoRestartDelay : ℤ) : ℚ)
        = (cfg.autoRestartDelay : ℚ) * 1 := by rw [mul_one]
      _ ≤ (cfg.autoRestartDelay : ℚ) * cfg.autoRestartBackoffMultiplier ^ n :=
          mul_le_mul_of_nonneg_left (one_le_pow₀ hm) hbQ
  refine ⟨?_, ?_, ?_⟩
  · intro n
    rcases Nat.eq_zero_or_pos n with hn | hn
    · subst hn
      simp [calculateBackoffDelay, backoffScheduleSpec, Int.floor_intCast]
    · have hn0 : n ≠ 0 := Nat.pos_iff_ne_zero.mp hn
      rw [hcalc n hn0]
      simp only [backoffScheduleSpec, hn0, if_false, ite_false]
      rcases le_total ((cfg.autoRestartDelay : ℚ) * cfg.autoRestartBackoffMultiplier ^ n)
          ((cfg.autoRestartMaxDelay : ℤ) : ℚ) with hc | hc
      · rw [min_eq_left hc, min_eq_left]
        have := Int.floor_le_floor hc
        rwa [Int.floor_intCast] at this
      · rw [min_eq_right hc, min_eq_right, Int.floor_intCast]
        rw [Int.le_floor]
        exact hc
  · intro n
    have hL0 : calculateBackoffDelay cfg 0 = cfg.autoRestartDelay := by
      simp [calculateBackoffDelay]
    rcases Nat.eq_zero_or_pos n with hn | hn
    · subst hn
      show calculateBackoffDelay cfg 0 ≤ calculateBackoffDelay cfg 1
      rw [hL0, hcalc 1 one_ne_zero]
      exact le_min (by simpa using hbase 1) hcap
    · have hn0 : n ≠ 0 := Nat.pos_iff_ne_zero.mp hn
      rw [hcalc n hn0, hcalc (n + 1) (Nat.succ_ne_zero n)]
      refine min_le_min ?_ le_rfl
      apply Int.floor_le_floor
      exact mul_le_mul_of_nonneg_left
        (pow_le_pow_right₀ hm (Nat.le_succ n)) hbQ
  · intro n
    rcases Nat.eq_zero_or_pos n with hn | hn
    · subst hn
      simpa [calculateBackoffDelay] using hcap
    · rw [hcalc n (Nat.pos_iff_ne_zero.mp hn)]
      exact min_le_right _ _

/-- The repository's default auto-restart configuration (part_008 lines
54-58), with durations in seconds: base 30s, multiplier 2.0, cap 5 minutes. -/
def defaultBPConfig : BPConfig :=
  { telegramToken := "", autoRestartEnabled := true, autoRestartDelay := 30,
    autoRestartMaxAttempts := 0, autoRestartBackoffMultiplier := 2,
    autoRestartMaxDelay := 300 }

/-- Concrete instantiation of C5's theorem at the default configuration. -/
theorem c5_witness :
    ((0 : Int) ≤ defaultBPConfig.autoRestartDelay ∧
     (1 : ℚ) ≤ defaultBPConfig.autoRestartBackoffMultiplier ∧
     defaultBPConfig.autoRestartDelay ≤ defaultBPConfig.autoRestartMaxDelay) ∧
    ((∀ n : Nat, calculateBackoffDelay defaultBPConfig n =
        ⌊backoffScheduleSpec defaultBPConfig n⌋) ∧
     (∀ n : Nat, calculateBackoffDelay defaultBPConfig n ≤
        calculateBackoffDelay defaultBPConfig (n + 1)) ∧
     (∀ n : Nat, calculateBackoffDelay defaultBPConfig n ≤
        defaultBPConfig.autoRestartMaxDelay)) :=
  ⟨⟨by norm_num [defaultBPConfig], by norm_num [defaultBPConfig],
    by norm_num [defaultBPConfig]⟩,
   c5_backoff_monotone_capped defaultBPConfig (by norm_num [defaultBPConfig])
     (by norm_num [defaultBPConfig]) (by norm_num [defaultBPConfig])⟩

/-! ### The monitor tick (Monitor.performCheck, part_001 lines 278-337) -/

/-- The monitor's in-memory source cache `Monitor.sources` (id → source). -/
abbrev SourceCache := String → Option Source

/-- The status-change callback `StatusChangeCallback`; its Bool result
models whether the eventual delivery succeeded.  The check loop spawns it
with `go` and never observes this result. -/
abbrev Notifier := Source → StatusChange → Bool

/-- Embedding of `Monitor.RecordWebhookReceived` (part_001 lines 242-252):
when the id is cached, set that entry's `LastCheckTime` to the received time
and its status to online (1); when absent, do nothing. -/
def recordWebhookReceived (cache : SourceCache) (sourceID : String) (receivedAt : Time) :
    SourceCache :=
  match cache sourceID with
  | none => cache
  | some source =>
    fun k =>
      if k = sourceID then
        some { source with lastCheckTime := receivedAt, currentStatus := 1 }
      else cache k

/-- Go's `Duration.Milliseconds()`: nanoseconds divided by 10^6, truncated
toward zero. -/
def durationMilliseconds (d : Int) : Int := Int.tdiv d 1000000

/-- Observable side effects of one tick, in program order.  `notified`
records the dispatch `go m.onStatusChange(source, change)`: a goroutine is
spawned and the tick neither waits for it nor observes its outcome. -/
inductive Effect where
  | savedChange (change : StatusChange)
  | updatedStatus (id : String) (status : Int) (checkTime : Time)
  | notified (sourceId : String) (change : StatusChange)
  deriving Repr, DecidableEq

/-- The state produced by one tick: the goroutine's source value (shared by
pointer with the cache entry), the database, the in-memory cache, and the
effect trace in program order. -/
structure CheckResult where
  source : Source
  store : Store
  cache : SourceCache
  trace : List Effect

/-- Embedding of `Monitor.performCheck` (part_001 lines 278-337).  Disabled
sources are skipped entirely.  The in-memory `LastCheckTime` is refreshed
for ping/http sources only.  On a detected change the transition event is
saved, the source record is persisted via `UpdateSourceStatus`, the
in-memory source and cache are updated, and the callback (when set) is
dispatched asynchronously; otherwise `UpdateSourceStatus` is called with
the unchanged status.  The random UUID given to the saved change by
`SaveStatusChange` is abstracted as the empty string. -/
def performCheck (e : Env) (onStatusChange : Option Notifier) (source : Source)
    (st : Store) (cache : SourceCache) : CheckResult :=
  if source.enabled = false then ⟨source, st, cache, []⟩
  else
    let checkTime := e.now
    let newStatus := checkSource e source
    let source1 :=
      if source.type ≠ "webhook" then { source with lastCheckTime := checkTime } else source
    if newStatus ≠ source1.currentStatus then
      let duration := checkTime - source1.lastChangeTime
      let change : StatusChange :=
        { id := "", sourceId := source1.id, oldStatus := source1.currentStatus,
          newStatus := newStatus, timestamp := checkTime,
          durationMs := durationMilliseconds duration }
      let st1 := saveStatusChange st change
      let st2 := applyUpdate st1 source1.id newStatus checkTime
      let source2 := { source1 with currentStatus := newStatus, lastChangeTime := checkTime }
      let cache2 : SourceCache := fun k => if k = source2.id then some source2 else cache k
      let trace :=
        [Effect.savedChange change, Effect.updatedStatus source1.id newStatus checkTime] ++
          (match onStatusChange with
           | some _ => [Effect.notified source2.id change]
           | none => [])
      ⟨source2, st2, cache2, trace⟩
    else
      let st1 := applyUpdate st source1.id source1.currentStatus checkTime
      ⟨source1, st1, cache, [Effect.updatedStatus source1.id source1.currentStatus checkTime]⟩

/-- Every check dispatch reports 0 or 1 (ping and http probes return 0/1,
the webhook grace check returns 0/1, unknown types return 0); in particular
it never reports the "unknown" marker -1. -/
theorem checkSource_nonneg (e : Env) (s : Source) : 0 ≤ checkSource e s := by
  unfold checkSource pingTarget checkHTTP checkWebhookSource
  split_ifs <;> try norm_num
  split_ifs <;> norm_num

/-- `applyUpdate` touches only the `sources` bucket. -/
theorem applyUpdate_changes (st : Store) (id : String) (status : Int) (t : Time) :
    (applyUpdate st id status t).changes = st.changes := by
  unfold applyUpdate updateSourceStatus
  cases h : getSource st id
  · rfl
  · simp [putSource]

/-- Characterization of a tick that detects a transition. -/
theorem performCheck_changed_spec (e : Env) (cb : Option Notifier) (source : Source)
    (st : Store) (cache : SourceCache)
    (hen : source.enabled = true)
    (hch : checkSource e source ≠ source.currentStatus) :
    (performCheck e cb source st cache).source.currentStatus = checkSource e source ∧
    (performCheck e cb source st cache).source.lastChangeTime = e.now ∧
    (performCheck e cb source st cache).source.lastCheckTime =
      (if source.type ≠ "webhook" then e.now else source.lastCheckTime) ∧
    (performCheck e cb source st cache).store =
      applyUpdate
        (saveStatusChange st
          { id := "", sourceId := source.id, oldStatus := source.currentStatus,
            newStatus := checkSource e source, timestamp := e.now,
            durationMs := durationMilliseconds (e.now - source.lastChangeTime) })
        source.id (checkSource e source) e.now ∧
    (performCheck e cb source st cache).trace =
      [Effect.savedChange
         { id := "", sourceId := source.id, oldStatus := source.currentStatus,
           newStatus := checkSource e source, timestamp := e.now,
           durationMs := durationMilliseconds (e.now - source.lastChangeTime) },
       Effect.updatedStatus source.id (checkSource e source) e.now] ++
        (match cb with
         | some _ => [Effect.notified source.id
             { id := "", sourceId := source.id, oldStatus := source.currentStatus,
               newStatus := checkSource e source, timestamp := e.now,
               durationMs := durationMilliseconds (e.now - source.lastChangeTime) }]
         | none => []) := by
  by_cases hw : source.type = "webhook"
  · simp [performCheck, hen, hch, hw, applyUpdate_changes, saveStatusChange]
  · simp [performCheck, hen, hch, hw, applyUpdate_changes, saveStatusChange]

/-- Characterization of a tick that observes an unchanged status. -/
theorem performCheck_unchanged_spec (e : Env) (cb : Option Notifier) (source : Source)
    (st : Store) (cache : SourceCache)
    (hen : source.enabled = true)
    (hch : checkSource e source = source.currentStatus) :
    (performCheck e cb source st cache).source =
      (if source.type ≠ "webhook" then { source with lastCheckTime := e.now } else source) ∧
    (performCheck e cb source st cache).store =
      applyUpdate st source.id source.currentStatus e.now ∧
    (performCheck e cb source st cache).cache = cache ∧
    (performCheck e cb source st cache).trace =
      [Effect.updatedStatus source.id source.currentStatus e.now] := by
  by_cases hw : source.type = "webhook"
  · simp [performCheck, hen, hch, hw]
  · simp [performCheck, hen, hch, hw]

/-- The empty in-memory cache. -/
def emptyCache : SourceCache := fun _ => none

/-- A cache holding only the sample webhook source under its id. -/
def sampleCache : SourceCache := fun k => if k = "w" then some sampleWebhookSource else none

/-- A store holding only the sample webhook source. -/
def webhookStore : Store := ⟨[("w", sampleWebhookSource)], []⟩

/-- A tick environment at time 1100 (within the sample source's grace
period) in which all network probes fail. -/
def envWithin : Env := ⟨1100, fun _ => false, fun _ => false⟩

/-- A tick environment at time 2000 (beyond the sample source's grace
period) in which all network probes fail. -/
def envDown : Env := ⟨2000, fun _ => false, fun _ => false⟩

/-- A tick environment at time 100 in which all network probes succeed. -/
def envUp : Env := ⟨100, fun _ => true, fun _ => true⟩

/-- A callback whose delivery always succeeds. -/
def alwaysOk : Notifier := fun _ _ => true

/-- At time 1100 the sample webhook source is inside its grace period
(deadline 1150), so the check reports online. -/
theorem checkSource_envWithin_sample : checkSource envWithin sampleWebhookSource = 1 := by
  show checkWebhookSource 1100 sampleWebhookSource = 1
  norm_num [checkWebhookSource, sampleWebhookSource, effectiveGraceMultiplier, goTrunc]

/-- At time 2000 the sample webhook source is beyond its grace period
(deadline 1150), so the check reports offline. -/
theorem checkSource_envDown_sample : checkSource envDown sampleWebhookSource = 0 := by
  show checkWebhookSource 2000 sampleWebhookSource = 0
  norm_num [checkWebhookSource, sampleWebhookSource, effectiveGraceMultiplier, goTrunc]

/-- C8: in every tick that detects a transition, the persistence writes (the
StatusChangeEvent and the updated source record) appear in the effect trace
strictly before the notification dispatch, and the dispatch is
fire-and-forget: the tick's resulting source, store and cache do not depend
on the callback's behavior, so a notification failure can neither block nor
fail the check. -/
theorem c8_persist_before_notify (e : Env) (source : Source) (st : Store)
    (cache : SourceCache) (f : Notifier)
    (hen : source.enabled = true)
    (hch : checkSource e source ≠ source.currentStatus) :
    (∃ change,
      (performCheck e (some f) source st cache).trace =
        [Effect.savedChange change,
         Effect.updatedStatus source.id (checkSource e source) e.now,
         Effect.notified source.id change]) ∧
    (∀ g : Notifier,
      (performCheck e (some f) source st cache).source =
        (performCheck e (some g) source st cache).source ∧
      (performCheck e (some f) source st cache).store =
        (performCheck e (some g) source st cache).store ∧
      (performCheck e (some f) source st cache).cache =
        (performCheck e (some g) source st cache).cache) := by
  constructor
  · obtain ⟨h1, h2, h3, h4, h5⟩ := performCheck_changed_spec e (some f) source st cache hen hch
    exact ⟨_, h5⟩
  · intro g
    exact ⟨rfl, rfl, rfl⟩

/-- Concrete instantiation of C8's theorem: the sample webhook source goes
offline at time 2000 and a callback is installed. -/
theorem c8_witness :
    (sampleWebhookSource.enabled = true ∧
     checkSource envDown sampleWebhookSource ≠ sampleWebhookSource.currentStatus) ∧
    ((∃ change,
      (performCheck envDown (some alwaysOk) sampleWebhookSource webhookStore emptyCache).trace =
        [Effect.savedChange change,
         Effect.updatedStatus sampleWebhookSource.id
           (checkSource envDown sampleWebhookSource) envDown.now,
         Effect.notified sampleWebhookSource.id change]) ∧
    (∀ g : Notifier,
      (performCheck envDown (some alwaysOk) sampleWebhookSource webhookStore emptyCache).source =
        (performCheck envDown (some g) sampleWebhookSource webhookStore emptyCache).source ∧
      (performCheck envDown (some alwaysOk) sampleWebhookSource webhookStore emptyCache).store =
        (performCheck envDown (some g) sampleWebhookSource webhookStore emptyCache).store ∧
      (performCheck envDown (some alwaysOk) sampleWebhookSource webhookStore emptyCache).cache =
        (performCheck envDown (some g) sampleWebhookSource webhookStore emptyCache).cache)) :=
  ⟨⟨by decide, by rw [checkSource_envDown_sample]; decide⟩,
   c8_persist_before_notify envDown sampleWebhookSource webhookStore emptyCache alwaysOk
     (by decide) (by rw [checkSource_envDown_sample]; decide)⟩

/-- C9: `RecordWebhookReceived(id, t)` updates exactly the cached entry for
`id` when present (setting its `last_check_time` to `t` and its status to
online), leaves the cache entirely unchanged when `id` is absent, and never
modifies any other cached source. -/
theorem c9_recordWebhookReceived_frame (cache : SourceCache) (id : String) (t : Time) :
    (∀ s, cache id = some s →
      recordWebhookReceived cache id t id =
        some { s with lastCheckTime := t, currentStatus := 1 }) ∧
    (cache id = none → recordWebhookReceived cache id t = cache) ∧
    (∀ k, k ≠ id → recordWebhookReceived cache id t k = cache k) := by
  refine ⟨?_, ?_, ?_⟩
  · intro s hs
    simp [recordWebhookReceived, hs]
  · intro h
    simp [recordWebhookReceived, h]
  · intro k hk
    unfold recordWebhookReceived
    cases hc : cache id with
    | none => rfl
    | some s => simp [hk]

/-- Concrete instantiation of C9's theorem on a one-entry cache. -/
theorem c9_witness :
    (sampleCache "w" = some sampleWebhookSource ∧
     recordWebhookReceived sampleCache "w" 1200 "w" =
       some { sampleWebhookSource with lastCheckTime := 1200, currentStatus := 1 }) ∧
    (("x" : String) ≠ "w" ∧
     recordWebhookReceived sampleCache "w" 1200 "x" = sampleCache "x") :=
  ⟨⟨rfl, (c9_recordWebhookReceived_frame sampleCache "w" 1200).1 sampleWebhookSource rfl⟩,
   ⟨by decide, (c9_recordWebhookReceived_frame sampleCache "w" 1200).2.2 "x" (by decide)⟩⟩

/-- A source as created by `handleCreateSource` (sources_handlers.go lines
89-100): current status -1 ("unknown initially"), zero timestamps. -/
def newPingSource : Source :=
  { id := "p1", name := "api-created", type := "ping", target := "10.0.0.2",
    checkInterval := 10, currentStatus := -1, lastCheckTime := 0, lastChangeTime := 0,
    enabled := true, createdAt := 0, webhookToken := "", gracePeriodMultiplier := 0,
    expectedHeaders := "", expectedContent := "" }

/-- A store holding only the freshly created ping source. -/
def newPingStore : Store := ⟨[("p1", newPingSource)], []⟩

/-- The transition record created by the first check of `newPingSource` at
time 100 with the probe reporting online. -/
def firstCheckChange : StatusChange :=
  { id := "", sourceId := "p1", oldStatus := -1, newStatus := 1, timestamp := 100,
    durationMs := 0 }

/-- C1 as stated is false: the first immediate check of a newly registered
source (stored with status -1) that comes back online persists a
StatusChangeEvent (old status -1, new status 1) and dispatches the
notification callback, instead of only establishing a baseline. -/
theorem c1_counterexample :
    newPingSource.currentStatus = -1 ∧
    (performCheck envUp (some alwaysOk) newPingSource newPingStore emptyCache).store.changes =
      [firstCheckChange] ∧
    (performCheck envUp (some alwaysOk) newPingSource newPingStore emptyCache).trace =
      [Effect.savedChange firstCheckChange,
       Effect.updatedStatus "p1" 1 100,
       Effect.notified "p1" firstCheckChange] := by
  refine ⟨rfl, ?_, ?_⟩ <;> decide

/-- C1 amended: the first immediate check of a newly registered source
(stored with the "unknown" status -1) sets the current status to the check
result and `last_change_time` to the check time, but — because any check
result (0 or 1) differs from -1 — it always also persists a
StatusChangeEvent with old status -1 and dispatches the notification
callback; the first observation is recorded as a transition, not as a
silent baseline. -/
theorem c1_first_check_emits_event (e : Env) (cb : Notifier) (source : Source)
    (st : Store) (cache : SourceCache)
    (hnew : source.currentStatus = -1)
    (hen : source.enabled = true) :
    (performCheck e (some cb) source st cache).source.currentStatus = checkSource e source ∧
    (performCheck e (some cb) source st cache).source.lastChangeTime = e.now ∧
    (performCheck e (some cb) source st cache).store.changes = st.changes ++
      [{ id := "", sourceId := source.id, oldStatus := -1,
         newStatus := checkSource e source, timestamp := e.now,
         durationMs := durationMilliseconds (e.now - source.lastChangeTime) }] ∧
    (∃ change, Effect.notified source.id change ∈
      (performCheck e (some cb) source st cache).trace) := by
  have hch : checkSource e source ≠ source.currentStatus := by
    rw [hnew]
    have hnn := checkSource_nonneg e source
    omega
  obtain ⟨h1, h2, h3, h4, h5⟩ := performCheck_changed_spec e (some cb) source st cache hen hch
  refine ⟨h1, h2, ?_, ?_⟩
  · rw [h4, applyUpdate_changes]
    simp [saveStatusChange, hnew]
  refine ⟨{ id := "", sourceId := source.id, oldStatus := source.currentStatus,
            newStatus := checkSource e source, timestamp := e.now,
            durationMs := durationMilliseconds (e.now - source.lastChangeTime) }, ?_⟩
  rw [h5]
  simp

/-- Concrete instantiation of the amended C1 theorem on the freshly created
ping source. -/
theorem c1_witness :
    (newPingSource.currentStatus = -1 ∧ newPingSource.enabled = true) ∧
    ((performCheck envUp (some alwaysOk) newPingSource newPingStore emptyCache).source.currentStatus
        = checkSource envUp newPingSource ∧
     (performCheck envUp (some alwaysOk) newPingSource newPingStore emptyCache).source.lastChangeTime
        = envUp.now ∧
     (performCheck envUp (some alwaysOk) newPingSource newPingStore emptyCache).store.changes
        = newPingStore.changes ++
          [{ id := "", sourceId := newPingSource.id, oldStatus := -1,
               newStatus := checkSource envUp newPingSource, timestamp := envUp.now,
               durationMs :=
                 durationMilliseconds (envUp.now - newPingSource.lastChangeTime) }] ∧
     (∃ change, Effect.notified newPingSource.id change ∈
       (performCheck envUp (some alwaysOk) newPingSource newPingStore emptyCache).trace)) :=
  ⟨⟨by decide, by decide⟩,
   c1_first_check_emits_event envUp alwaysOk newPingSource newPingStore emptyCache
     (by decide) (by decide)⟩

/-- C2 is violated by the code: a tick on a passive-heartbeat (webhook)
source leaves the in-memory copy's `last_check_time` alone but persists the
record through `UpdateSourceStatus`, which unconditionally overwrites the
stored `LastCheckTime` with the tick time — in the status-unchanged branch
(tick at 1100) and in the status-changed branch (tick at 2000) alike.  This
contradicts the repository's own documentation ("For webhook sources,
LastCheckTime is updated only when an incoming request hits
/webhooks/incoming/:token") and the never-called helper
`UpdateSourceCurrentStatus` written for exactly this purpose. -/
theorem c2_tick_persists_heartbeat_time :
    sampleWebhookSource.type = "webhook" ∧
    sampleWebhookSource.lastCheckTime = 1000 ∧
    (performCheck envWithin none sampleWebhookSource webhookStore emptyCache).source.lastCheckTime
      = 1000 ∧
    getSource (performCheck envWithin none sampleWebhookSource webhookStore emptyCache).store "w"
      = some { sampleWebhookSource with lastCheckTime := 1100 } ∧
    (performCheck envDown none sampleWebhookSource webhookStore emptyCache).source.lastCheckTime
      = 1000 ∧
    getSource (performCheck envDown none sampleWebhookSource webhookStore emptyCache).store "w"
      = some { sampleWebhookSource with
          currentStatus := 0, lastCheckTime := 2000, lastChangeTime := 2000 } := by
  obtain ⟨hu1, hu2, hu3, hu4⟩ := performCheck_unchanged_spec envWithin none
    sampleWebhookSource webhookStore emptyCache rfl checkSource_envWithin_sample
  obtain ⟨hc1, hc2, hc3, hc4, hc5⟩ := performCheck_changed_spec envDown none
    sampleWebhookSource webhookStore emptyCache rfl
    (by rw [checkSource_envDown_sample]; decide)
  refine ⟨rfl, rfl, ?_, ?_, ?_, ?_⟩
  · rw [hu1]
    simp [sampleWebhookSource]
  · rw [hu2]
    decide
  · rw [hc3]
    simp [sampleWebhookSource]
  · rw [hc4, checkSource_envDown_sample]
    decide

/-! ### Bot process supervisor (internal/appmanager/bot_process.go) -/

/-- The supervisor's mutable state (`BotProcess`): the health flags, last
error, restart bookkeeping, whether the bot and monitor references are set,
and whether the supervisor's mutex `bp.mu` is currently held by the
goroutine under consideration (Go's `sync.Mutex` is not reentrant). -/
structure BPState where
  running : Bool
  healthy : Bool
  lastError : Option String
  restartAttempts : Nat
  restartTimer : Option Int
  botSet : Bool
  monitorSet : Bool
  muHeld : Bool
  deriving Repr, DecidableEq

/-- The zero value of `BotProcess` as produced by `NewBotProcess`. -/
def initialBPState : BPState :=
  { running := false, healthy := false, lastError := none, restartAttempts := 0,
    restartTimer := none, botSet := false, monitorSet := false, muHeld := false }

/-- The body of `scheduleAutoRestart` once the lock is held (bot_process.go
lines 331-363): no-op when auto-restart is disabled or when a positive
maximum attempt count has been reached; otherwise any pending timer is
stopped and a fresh one-shot timer is armed with the backoff delay. -/
def scheduleAutoRestartBody (cfg : BPConfig) (s : BPState) : BPState :=
  if cfg.autoRestartEnabled = false then s
  else if 0 < cfg.autoRestartMaxAttempts ∧
      cfg.autoRestartMaxAttempts ≤ (s.restartAttempts : Int) then s
  else { s with restartTimer := some (calculateBackoffDelay cfg s.restartAttempts) }

/-- `scheduleAutoRestart` as invoked at runtime: its first action is
`bp.mu.Lock()`.  `none` models the self-deadlock when the calling goroutine
already holds the mutex (`sync.Mutex.Lock` then blocks forever). -/
def scheduleAutoRestart (cfg : BPConfig) (s : BPState) : Option BPState :=
  if s.muHeld = true then none
  else some (scheduleAutoRestartBody cfg s)

/-- The possible outcomes of `BotProcess.Start`: the `AlreadyRunning` error,
a `nil` return, or never returning because the goroutine deadlocked. -/
inductive StartResult where
  | alreadyRunning
  | ok
  | blocked
  deriving Repr, DecidableEq

/-- Whether `Start` takes the web-only path: empty or placeholder token
(bot_process.go line 73). -/
def webOnlyToken (token : String) : Bool :=
  token == "" || token == "your_bot_token_here"

/-- Embedding of `BotProcess.Start` (bot_process.go lines 55-137).  `Start`
acquires `bp.mu` for its whole body (released via defer on return).
`botInitOk` says whether `bot.New` succeeds, `monitorStartOk` whether
`Monitor.Start` succeeds.  On each initialization-failure path the code
records the error, marks running (but not healthy), increments the attempt
counter and calls `scheduleAutoRestart` — which starts by locking the
non-reentrant `bp.mu` that this goroutine still holds, so the call never
returns (`StartResult.blocked`): the mutations made so far stay frozen and
no restart timer is armed. -/
def startProc (cfg : BPConfig) (botInitOk monitorStartOk : Bool) (s0 : BPState) :
    BPState × StartResult :=
  let s1 := { s0 with muHeld := true }
  if s1.running = true then ({ s1 with muHeld := false }, .alreadyRunning)
  else
    let s2 := { s1 with lastError := none, healthy := false }
    if webOnlyToken cfg.telegramToken then
      let s3 := { s2 with monitorSet := true }
      if monitorStartOk = false then
        let s4 := { s3 with lastError := some "failed to start monitor", running := true,
                            restartAttempts := s3.restartAttempts + 1 }
        match scheduleAutoRestart cfg s4 with
        | none => (s4, .blocked)
        | some s5 => ({ s5 with muHeld := false }, .ok)
      else
        ({ s3 with running := true, healthy := true, restartAttempts := 0,
                   muHeld := false }, .ok)
    else
      if botInitOk = false then
        let s3 := { s2 with lastError := some "failed to initialize bot", running := true,
                            restartAttempts := s2.restartAttempts + 1 }
        match scheduleAutoRestart cfg s3 with
        | none => (s3, .blocked)
        | some s5 => ({ s5 with muHeld := false }, .ok)
      else
        let s3 := { s2 with botSet := true, monitorSet := true }
        if monitorStartOk = false then
          let s4 := { s3 with lastError := some "failed to start monitor", running := true,
                              restartAttempts := s3.restartAttempts + 1 }
          match scheduleAutoRestart cfg s4 with
          | none => (s4, .blocked)
          | some s5 => ({ s5 with muHeld := false }, .ok)
        else
          ({ s3 with running := true, healthy := true, restartAttempts := 0,
                     muHeld := false }, .ok)

/-- Embedding of `BotProcess.Stop` (bot_process.go lines 177-209): no-op
when not running; otherwise it stops any pending restart timer, cancels the
context, clears the bot and monitor references and clears `running`.  The
`healthy` flag is left untouched. -/
def stopProc (s : BPState) : BPState :=
  if s.running = false then s
  else
    { s with restartTimer := none, running := false, botSet := false, monitorSet := false }

/-- Embedding of the fault-recovery paths of `runBotWithRecovery`
(bot_process.go lines 140-174): a recovered panic or an unexpected bot stop
marks unhealthy, records the error and increments the attempt counter under
the briefly-held lock, then calls `scheduleAutoRestart` from a goroutine
that no longer holds the mutex (so its body runs). -/
def botFault (cfg : BPConfig) (err : String) (s : BPState) : BPState :=
  scheduleAutoRestartBody cfg
    { s with healthy := false, lastError := some err,
             restartAttempts := s.restartAttempts + 1 }

/-- Embedding of `BotProcess.IsHealthy` (bot_process.go lines 237-241):
reports `running && healthy`. -/
def isHealthy (s : BPState) : Bool := s.running && s.healthy

/-- One supervisor transition: a `Start` call (with the initialization
outcomes supplied by the environment), a `Stop` call, or a fault recovery. -/
inductive BPStep (cfg : BPConfig) : BPState → BPState → Prop
  | start (botInitOk monitorStartOk : Bool) {s : BPState} :
      BPStep cfg s (startProc cfg botInitOk monitorStartOk s).1
  | stop {s : BPState} : BPStep cfg s (stopProc s)
  | fault (err : String) {s : BPState} : BPStep cfg s (botFault cfg err s)

/-- States reachable from the fresh supervisor by sequences of Start, Stop
and fault-recovery transitions. -/
def BPReachable (cfg : BPConfig) (s : BPState) : Prop :=
  Relation.ReflTransGen (BPStep cfg) initialBPState s

/-- The default configuration with a (syntactically present) Telegram
token. -/
def cfgWithToken : BPConfig := { defaultBPConfig with telegramToken := "123:abc" }

/-- C6 is contradicted by the code: `Start` holds `bp.mu` for its entire
body, and on an initialization failure (here `bot.New` fails, e.g. an
invalid token) it calls `scheduleAutoRestart`, whose first action is to
lock the same non-reentrant mutex — a self-deadlock.  `Start` therefore
never returns nil (it never returns at all) and no restart timer is armed;
the mutations made before the deadlock (running=true, healthy=false,
recorded error, incremented attempt counter) stay frozen with the mutex
held. -/
theorem c6_start_deadlocks_on_init_failure :
    (startProc cfgWithToken false true initialBPState).2 = StartResult.blocked ∧
    (startProc cfgWithToken false true initialBPState).1.running = true ∧
    (startProc cfgWithToken false true initialBPState).1.healthy = false ∧
    (startProc cfgWithToken false true initialBPState).1.lastError =
      some "failed to initialize bot" ∧
    (startProc cfgWithToken false true initialBPState).1.restartAttempts = 1 ∧
    (startProc cfgWithToken false true initialBPState).1.restartTimer = none ∧
    (startProc cfgWithToken false true initialBPState).1.muHeld = true := by
  refine ⟨?_, ?_, ?_, ?_, ?_, ?_, ?_⟩ <;> decide

/-- C7 as stated is false: after a successful `Start` followed by `Stop`,
the raw `healthy` flag is still true while `running` is false, because
`Stop` never clears `healthy`. -/
theorem c7_counterexample :
    BPReachable cfgWithToken (stopProc (startProc cfgWithToken true true initialBPState).1) ∧
    (stopProc (startProc cfgWithToken true true initialBPState).1).healthy = true ∧
    (stopProc (startProc cfgWithToken true true initialBPState).1).running = false := by
  refine ⟨?_, by decide, by decide⟩
  exact Relation.ReflTransGen.tail
    (Relation.ReflTransGen.tail Relation.ReflTransGen.refl (BPStep.start true true))
    BPStep.stop

/-- C7 amended: in every reachable state of the supervisor, the health
reported by `IsHealthy()` (the conjunction `running && healthy`) is true
only when `running` is true; the raw `healthy` flag itself can be true with
`running` false only in the torn-down state left by `Stop` (monitor
reference cleared) — `Stop` does not clear `healthy`, and `IsHealthy`
masks the stale flag with `running`. -/
theorem c7_health_only_when_running (cfg : BPConfig) (s : BPState)
    (h : BPReachable cfg s) :
    (isHealthy s = true → s.running = true) ∧
    (s.healthy = true → s.running = true ∨ s.monitorSet = false) := by
  constructor
  · intro hh
    exact (Bool.and_eq_true _ _ |>.mp hh).1
  · induction h with
    | refl => simp [initialBPState]
    | tail hab hbc ih =>
      rename_i b c
      cases hbc with
      | start botInitOk monitorStartOk =>
        unfold startProc scheduleAutoRestart
        split_ifs <;> simp_all
        all_goals split_ifs <;> simp_all
      | stop =>
        unfold stopProc
        split_ifs <;> simp_all
      | fault err =>
        unfold botFault scheduleAutoRestartBody
        split_ifs <;> simp_all

/-- Concrete instantiation of the amended C7 theorem at the reachable
healthy state produced by one successful `Start`. -/
theorem c7_witness :
    BPReachable cfgWithToken (startProc cfgWithToken true true initialBPState).1 ∧
    ((isHealthy (startProc cfgWithToken true true initialBPState).1 = true →
      (startProc cfgWithToken true true initialBPState).1.running = true) ∧
     ((startProc cfgWithToken true true initialBPState).1.healthy = true →
      (startProc cfgWithToken true true initialBPState).1.running = true ∨
      (startProc cfgWithToken true true initialBPState).1.monitorSet = false)) :=
  ⟨Relation.ReflTransGen.tail Relation.ReflTransGen.refl (BPStep.start true true),
   c7_health_only_when_running cfgWithToken _
     (Relation.ReflTransGen.tail Relation.ReflTransGen.refl (BPStep.start true true))⟩

/-! ### Inbound heartbeat endpoint (AppManager.handleIncomingWebhook) -/

/-- Embedding of `BoltDB.GetSourceByWebhookToken` (bolt.go lines 208-236):
scan the sources bucket for a webhook-type source with the given inbound
token; empty tokens never match. -/
def getSourceByWebhookToken (st : Store) (token : String) : Option Source :=
  if token = "" then none
  else
    (st.sources.find?
        (fun p => p.2.type == "webhook" && p.2.webhookToken == token)).map
      (fun p => p.2)

/-- An inbound heartbeat request: the token path parameter, the request
headers (as read by `Header.Get`) and the body (`none` models a nil body). -/
structure HbRequest where
  token : String
  headers : String → String
  body : Option String

/-- The JSON response written by the heartbeat endpoint: HTTP status code
plus the string map sent as the body. -/
structure HbResponse where
  status : Nat
  fields : List (String × String)
  deriving Repr, DecidableEq

/-- The persistence tail of `handleIncomingWebhook` (webhook handler lines
258-277): persist `status=online, last_check_time=now` via
`UpdateSourceStatus`, then update the monitor cache when a monitor is
present. -/
def heartbeatPersist (hasMonitor : Bool) (now : Time) (source : Source) (st : Store)
    (cache : SourceCache) : HbResponse × Store × SourceCache :=
  match updateSourceStatus st source.id 1 now with
  | none => (⟨500, [("error", "Failed to record heartbeat")]⟩, st, cache)
  | some st2 =>
    let cache2 := if hasMonitor then recordWebhookReceived cache source.id now else cache
    (⟨200, [("status", "ok")]⟩, st2, cache2)

/-- The body-content validation phase of `handleIncomingWebhook` (lines
237-256): when an expected substring is configured, a nil body is a 400 and
a body not containing the substring is a 401 (`strings.Contains` is modeled
by `splitOn` producing at least two parts, valid because the substring is
nonempty in this branch). -/
def heartbeatValidateContent (hasMonitor : Bool) (now : Time) (req : HbRequest)
    (source : Source) (st : Store) (cache : SourceCache) :
    HbResponse × Store × SourceCache :=
  if source.expectedContent ≠ "" then
    match req.body with
    | some b =>
      if 2 ≤ (b.splitOn source.expectedContent).length then
        heartbeatPersist hasMonitor now source st cache
      else (⟨401, [("error", "Content validation failed")]⟩, st, cache)
    | none => (⟨400, [("error", "Expected content in body")]⟩, st, cache)
  else heartbeatPersist hasMonitor now source st cache

/-- Embedding of `AppManager.handleIncomingWebhook` (webhook handler lines
193-278).  `parseJSONObject` abstracts `encoding/json.Unmarshal` into a
string map (`none` = parse error); `hasMonitor` says whether
`botProcess.GetMonitor()` returned a non-nil monitor.  Returns the JSON
response together with the resulting store and monitor cache. -/
def handleIncomingWebhook (parseJSONObject : String → Option (List (String × String)))
    (hasMonitor : Bool) (now : Time) (req : HbRequest) (st : Store)
    (cache : SourceCache) : HbResponse × Store × SourceCache :=
  if req.token = "" then (⟨400, [("error", "Missing webhook token")]⟩, st, cache)
  else
    match getSourceByWebhookToken st req.token with
    | none => (⟨404, [("error", "Webhook not found")]⟩, st, cache)
    | some source =>
      if source.enabled = false then
        (⟨200, [("status", "ok"), ("note", "Source is paused")]⟩, st, cache)
      else if source.expectedHeaders ≠ "" then
        match parseJSONObject source.expectedHeaders with
        | none => (⟨500, [("error", "Invalid source configuration")]⟩, st, cache)
        | some expected =>
          if expected.all (fun kv => req.headers kv.1 == kv.2) then
            heartbeatValidateContent hasMonitor now req source st cache
          else (⟨401, [("error", "Header validation failed")]⟩, st, cache)
      else heartbeatValidateContent hasMonitor now req source st cache

/-- C10: a heartbeat whose token resolves to a stored source with
`Enabled=false` is answered with HTTP 200 success ("Source is paused"), and
neither the stored source record nor the monitor's in-memory cache is
modified: the handler returns before any validation, persistence write or
cache update. -/
theorem c10_disabled_source_heartbeat_noop
    (parseJSONObject : String → Option (List (String × String)))
    (hasMonitor : Bool) (now : Time) (req : HbRequest) (st : Store)
    (cache : SourceCache) (source : Source)
    (hres : getSourceByWebhookToken st req.token = some source)
    (hdis : source.enabled = false) :
    (handleIncomingWebhook parseJSONObject hasMonitor now req st cache).1.status = 200 ∧
    (handleIncomingWebhook parseJSONObject hasMonitor now req st cache).2.1 = st ∧
    (handleIncomingWebhook parseJSONObject hasMonitor now req st cache).2.2 = cache := by
  have htok : ¬ req.token = "" := by
    intro h
    rw [h] at hres
    simp [getSourceByWebhookToken] at hres
  have hrun : handleIncomingWebhook parseJSONObject hasMonitor now req st cache =
      (⟨200, [("status", "ok"), ("note", "Source is paused")]⟩, st, cache) := by
    unfold handleIncomingWebhook
    rw [if_neg htok, hres]
    simp [hdis]
  rw [hrun]
  exact ⟨rfl, rfl, rfl⟩

/-- The sample webhook source, paused. -/
def pausedWebhookSource : Source := { sampleWebhookSource with enabled := false }

/-- A store holding only the paused webhook source. -/
def pausedStore : Store := ⟨[("w", pausedWebhookSource)], []⟩

/-- A heartbeat request carrying the paused source's token. -/
def pausedHbRequest : HbRequest := ⟨"tok", fun _ => "", none⟩

/-- Concrete instantiation of C10's theorem: a heartbeat for the paused
sample source. -/
theorem c10_witness :
    (getSourceByWebhookToken pausedStore pausedHbRequest.token = some pausedWebhookSource ∧
     pausedWebhookSource.enabled = false) ∧
    ((handleIncomingWebhook (fun _ => none) true 1300 pausedHbRequest pausedStore
        sampleCache).1.status = 200 ∧
     (handleIncomingWebhook (fun _ => none) true 1300 pausedHbRequest pausedStore
        sampleCache).2.1 = pausedStore ∧
     (handleIncomingWebhook (fun _ => none) true 1300 pausedHbRequest pausedStore
        sampleCache).2.2 = sampleCache) :=
  ⟨⟨by decide, by decide⟩,
   c10_disabled_source_heartbeat_noop (fun _ => none) true 1300 pausedHbRequest pausedStore
     sampleCache pausedWebhookSource (by decide) (by decide)⟩

end OutageMonitor
